import Mathlib

/-!
Verification of the identity and classification engine of
`homeassistant/components/tplink/entity.py`.

The Python module is shallowly embedded: devices and features become Lean
structures, the entity constructor `CoordinatedTPLinkEntity.__init__` becomes a
pure function producing a record of everything the constructor stores on the
entity, and the write-action wrapper and the availability state machine become
explicit state-passing functions.  Machine integers do not occur; all data is
strings, booleans and enumerations.
-/

namespace TPLink

/-- Device types of the kasa library (`kasa.DeviceType`).  Only the
constructors the module inspects matter; the rest stand for "any other type". -/
inductive DeviceType where
  | Plug
  | Bulb
  | Strip
  | WallSwitch
  | StripSocket
  | Dimmer
  | LightStrip
  | Sensor
  | Hub
  | Fan
  | Thermostat
  | Unknown
deriving DecidableEq

/-- Feature categories of the kasa library (`kasa.Feature.Category`). -/
inductive FeatureCategory where
  | Primary
  | Config
  | Info
  | Debug
deriving DecidableEq

/-- Feature types of the kasa library (`kasa.Feature.Type`). -/
inductive FeatureType where
  | Sensor
  | BinarySensor
  | Switch
  | Action
  | Number
  | Choice
  | Unknown
deriving DecidableEq

/-- A capability a device exposes (`kasa.Feature`): stable id, display name,
type and category. -/
structure Feature where
  id : String
  name : String
  type : FeatureType
  category : FeatureCategory
deriving DecidableEq

/-- A device node (`kasa.Device`), restricted to the fields the module reads.
`sw_ver` and `hw_ver` model `device.hw_info["sw_ver"]` and
`device.hw_info["hw_ver"]`.  `isIot` models `isinstance(device, IotDevice)`.
`legacyId` carries the value of the external `legacy_device_id` collaborator
for this device, treated as an opaque stable key. -/
structure Device where
  device_id : String
  alias_ : String
  model : String
  mac : String
  device_type : DeviceType
  sw_ver : String
  hw_ver : String
  features : List Feature
  isIot : Bool
  legacyId : String
deriving DecidableEq

/-- Modelled from the spec: `legacy_device_id(device) -> str` is an external
collaborator (defined in the integration's `__init__.py`, not under `src/`)
producing a stable opaque per-device key.  It is modelled as reading the
device's opaque `legacyId` field. -/
def legacy_device_id (device : Device) : String := device.legacyId

/-- Modelled from the spec: the platform's designated "primary state" feature
id, imported from `.const` (not under `src/`).  The module only compares
feature ids against it, so any fixed string models it faithfully. -/
def PRIMARY_STATE_ID : String := "state"

/-- Entity categories of the home-automation platform
(`homeassistant.const.EntityCategory`), restricted to the two the module
produces. -/
inductive EntityCategory where
  | config
  | diagnostic
deriving DecidableEq

/-- `FEATURE_CATEGORY_TO_ENTITY_CATEGORY`: the fixed lookup table from
upstream feature category to platform entity category; `none` models a key
missing from the Python dict. -/
def FEATURE_CATEGORY_TO_ENTITY_CATEGORY : FeatureCategory → Option EntityCategory
  | FeatureCategory.Config => some EntityCategory.config
  | FeatureCategory.Info => some EntityCategory.diagnostic
  | FeatureCategory.Debug => some EntityCategory.diagnostic
  | FeatureCategory.Primary => none

/-- `DEVICETYPES_WITH_SPECIALIZED_PLATFORMS`: device types whose primary
feature is already modeled by a specialized platform. -/
def DEVICETYPES_WITH_SPECIALIZED_PLATFORMS : List DeviceType :=
  [DeviceType.Bulb, DeviceType.LightStrip, DeviceType.Dimmer]

/-- `CoordinatedTPLinkEntity._get_unique_id`.  The Python method reads
`self._device`, `self._feature`, the entity's class (`isinstance(self,
LightEntity)`) and `self.entity_description`; those become the four arguments.
The Python function falls off the end (implicitly returning `None`) when no
branch applies, hence the `Option String` result. -/
def getUniqueId (device : Device) (feature : Option Feature) (isLightEntity : Bool)
    (entityDescriptionKey : Option String) : Option String :=
  match feature with
  | some f =>
      -- Special handling for the primary state attribute (backwards compat).
      if f.id = PRIMARY_STATE_ID then
        some (legacy_device_id device)
      else
        some (legacy_device_id device ++ "_" ++ f.id)
  | none =>
      if isLightEntity then
        -- For backwards compat with pyHS100, legacy-family dimmers keep the
        -- switch-format id; other lights use the normalized MAC.
        if device.device_type = DeviceType.Dimmer ∧ device.isIot then
          some (legacy_device_id device)
        else
          some ((device.mac.replace ":" "").toUpper)
      else
        match entityDescriptionKey with
        | some key => some (legacy_device_id device ++ "_" ++ key)
        | none => none

/-- `CoordinatedTPLinkEntity._category_for_feature`: main controls (no feature
or a Primary feature) get no category; otherwise the lookup table decides,
falling back to diagnostic on a missing key. -/
def categoryForFeature (feature : Option Feature) : Option EntityCategory :=
  match feature with
  | none => none
  | some f =>
      if f.category = FeatureCategory.Primary then
        none
      else
        some ((FEATURE_CATEGORY_TO_ENTITY_CATEGORY f.category).getD EntityCategory.diagnostic)

/-- Everything `CoordinatedTPLinkEntity.__init__` stores on the entity:
the `DeviceInfo` fields (registry identifiers, manufacturer, model, name,
versions, and exactly one of `via_device` / `connections`), `_attr_name`,
`_attr_unique_id` and `_attr_entity_category`. -/
structure EntityInit where
  registryDeviceId : String
  manufacturer : String
  model : String
  name : String
  sw_version : String
  hw_version : String
  attrName : Option String
  via_device : Option String
  connections : Option String
  uniqueId : Option String
  entityCategory : Option EntityCategory
deriving DecidableEq

/-- `CoordinatedTPLinkEntity.__init__`.  The entity's class enters through
`isSensorEntity` (`isinstance(self, SensorEntity)`) and `isLightEntity`
(`isinstance(self, LightEntity)`); `entityDescriptionKey` models
`self.entity_description.key` when a description is set.  Python compares
`parent != registry_device` by object identity; the embedding uses structural
equality, which coincides whenever the parent is a distinct device from the
child (always the case for a real parent/child pair). -/
def initEntity (device : Device) (feature : Option Feature) (parent : Option Device)
    (isSensorEntity isLightEntity : Bool) (entityDescriptionKey : Option String) :
    EntityInit :=
  -- registry_device / name / _attr_name selection
  let rna : Device × String × Option String :=
    match parent with
    | some p =>
        if p.device_type ≠ DeviceType.Hub then
          if !isSensorEntity &&
              (match feature with
               | none => true
               | some f => f.category == FeatureCategory.Primary) then
            -- Entity is added to the parent: registry_device = parent,
            -- name = parent alias, _attr_name = device alias.
            (p, p.alias_, some device.alias_)
          else
            -- Prefix the device name with the parent name.
            (device, p.alias_ ++ " " ++ device.alias_, none)
        else
          (device, device.alias_, none)
    | none => (device, device.alias_, none)
  let registryDevice := rna.1
  -- via_device versus connections: set via_device iff a parent exists and it
  -- is not the registry device, else attach the device MAC as a connection.
  let viaConn : Option String × Option String :=
    match parent with
    | some p =>
        if p ≠ registryDevice then
          (some p.device_id, none)
        else
          (none, some device.mac)
    | none => (none, some device.mac)
  ⟨registryDevice.device_id, "TP-Link", registryDevice.model, rna.2.1,
    registryDevice.sw_ver, registryDevice.hw_ver, rna.2.2,
    viaConn.1, viaConn.2,
    getUniqueId device feature isLightEntity entityDescriptionKey,
    categoryForFeature feature⟩

/-- The guard of the list comprehension in `_entities_for_device`: the feature
type must match and a Primary-category feature must not sit on a device type
served by a specialized platform. -/
def featureQualifies (device : Device) (feature_type : FeatureType) (feat : Feature) :
    Bool :=
  feat.type == feature_type &&
    (feat.category != FeatureCategory.Primary ||
      !(DEVICETYPES_WITH_SPECIALIZED_PLATFORMS.contains device.device_type))

/-- `_entities_for_device`: one constructed entity per qualifying feature of
the device, in feature order. -/
def entitiesForDevice (device : Device) (feature_type : FeatureType)
    (parent : Option Device) (isSensorEntity isLightEntity : Bool)
    (entityDescriptionKey : Option String) : List EntityInit :=
  (device.features.filter (featureQualifies device feature_type)).map
    (fun feat =>
      initEntity device (some feat) parent isSensorEntity isLightEntity
        entityDescriptionKey)

/-- Device-library exceptions the wrapper catches, ordered as the `except`
clauses are: `AuthenticationError`, `TimeoutError`, then any other
`KasaException`.  Each carries its message (`str(ex)`). -/
inductive KasaError where
  | auth (msg : String)
  | timeoutErr (msg : String)
  | kasa (msg : String)
deriving DecidableEq

/-- The message of a device-library exception (`str(ex)`). -/
def KasaError.msg : KasaError → String
  | KasaError.auth m => m
  | KasaError.timeoutErr m => m
  | KasaError.kasa m => m

/-- The `HomeAssistantError` raised by the wrapper: translation key plus the
two placeholders (the wrapped function's `__name__`, the original exception
text). -/
structure HAError where
  translation_key : String
  func : String
  exc : String
deriving DecidableEq

/-- Side effects the wrapper can perform, in order:
`async_start_reauth` and `async_request_refresh`. -/
inductive WrapEvent where
  | reauth
  | refresh
deriving DecidableEq

/-- `async_refresh_after`: run the wrapped call, translating device-library
failures and requesting a refresh on success.  The wrapped call is modelled by
its outcome (`callResult`); the returned pair is the ordered list of side
effects performed and the overall outcome. -/
def async_refresh_after (funcName : String) (callResult : Except KasaError Unit) :
    List WrapEvent × Except HAError Unit :=
  match callResult with
  | Except.ok _ => ([WrapEvent.refresh], Except.ok ())
  | Except.error (KasaError.auth m) =>
      ([WrapEvent.reauth], Except.error ⟨"device_authentication", funcName, m⟩)
  | Except.error (KasaError.timeoutErr m) =>
      ([], Except.error ⟨"device_timeout", funcName, m⟩)
  | Except.error (KasaError.kasa m) =>
      ([], Except.error ⟨"device_error", funcName, m⟩)

/-- `CoordinatedTPLinkEntity._async_call_update_attrs`: one refresh step of the
availability state machine.  `available` is the entity's `_attr_available`
flag before the step (its initial value in the platform base class is `true`);
the subtype's `_async_update_attrs` hook is modelled by its outcome.  Returns
the new flag and the number of warnings logged (1 only on the
available-to-unavailable edge).  The catch-all `except Exception` makes this a
total function: the hook's exception never propagates. -/
def callUpdateAttrs (available : Bool) (updateResult : Except String Unit) :
    Bool × Nat :=
  match updateResult with
  | Except.ok _ => (true, 0)
  | Except.error _ => (false, if available then 1 else 0)

/-- A sequence of coordinator refreshes of one entity: fold `callUpdateAttrs`
over the list of hook outcomes, returning the final flag and the total number
of warnings logged. -/
def runUpdates (available : Bool) (results : List (Except String Unit)) :
    Bool × Nat :=
  match results with
  | [] => (available, 0)
  | r :: rs =>
      let s := callUpdateAttrs available r
      let rest := runUpdates s.1 rs
      (rest.1, s.2 + rest.2)

/-- The description record `_description_for_feature` builds: `key`,
`translation_key`, `name` and the registry-enabled default. -/
structure EntityDescriptionRec where
  key : String
  translation_key : String
  name : String
  entity_registry_enabled_default : Bool
deriving DecidableEq

/-- `_description_for_feature`: the only recognized extra option is
`entity_registry_enabled_default`, modelled as `Option Bool` (`none` = caller
did not pass it).  When absent it defaults to "category is not Debug". -/
def description_for_feature (feature : Feature)
    (entity_registry_enabled_default : Option Bool) : EntityDescriptionRec :=
  let enabled : Bool :=
    match entity_registry_enabled_default with
    | some b => b
    | none => feature.category != FeatureCategory.Debug
  ⟨feature.id, feature.id, feature.name, enabled⟩

/-! Concrete fixtures used by witnesses and counterexamples. -/

/-- A plain plug device with no parent. -/
def plugDevice : Device :=
  ⟨"dev0", "Plug One", "HS100", "aa:bb:cc:dd:ee:ff", DeviceType.Plug,
    "1.0.0", "2.0", [], true, "legacy0"⟩

/-- A hub device, used as a parent. -/
def hubDevice : Device :=
  ⟨"hub1", "Living Hub", "KH100", "11:22:33:44:55:66", DeviceType.Hub,
    "1.0.0", "1.0", [], false, "legacyhub"⟩

/-- A non-hub parent device (a power strip). -/
def stripDevice : Device :=
  ⟨"strip1", "Desk Strip", "KP303", "22:33:44:55:66:77", DeviceType.Strip,
    "1.0.0", "1.0", [], false, "legacystrip"⟩

/-- A child device attached below a parent. -/
def childDevice : Device :=
  ⟨"child1", "Ceiling Fan", "KS240", "33:44:55:66:77:88", DeviceType.WallSwitch,
    "1.0.0", "1.0", [], false, "legacychild"⟩

/-- The primary on/off feature. -/
def stateFeature : Feature :=
  ⟨"state", "State", FeatureType.Switch, FeatureCategory.Primary⟩

/-- A Config-category feature. -/
def ledFeature : Feature :=
  ⟨"led", "LED", FeatureType.Switch, FeatureCategory.Config⟩

/-- A Debug-category feature. -/
def rssiFeature : Feature :=
  ⟨"rssi", "RSSI", FeatureType.Sensor, FeatureCategory.Debug⟩

/-! Helper lemmas about string concatenation, shared by the unique-id
theorems. -/

/-- A string is never equal to itself extended by an underscore and a suffix. -/
theorem ne_append_underscore (a x : String) : a ≠ a ++ "_" ++ x := by
  intro h
  have h1 := congrArg String.length h
  rw [String.length_append, String.length_append] at h1
  have h2 : ("_" : String).length = 1 := rfl
  omega

/-- Appending distinct suffixes after an underscore to the same prefix gives
distinct strings. -/
theorem append_underscore_inj (a x y : String)
    (h : a ++ "_" ++ x = a ++ "_" ++ y) : x = y := by
  have h1 := congrArg String.data h
  simp only [String.data_append] at h1
  exact String.ext (List.append_cancel_left h1)

/-- C1: for an entity built with a feature, the unique id is the legacy device
id when the feature id is the designated primary-state id and
`legacy_device_id ++ "_" ++ feature.id` otherwise, and two distinct feature
ids on the same device always produce distinct unique ids. -/
theorem C1_unique_id_with_feature (device : Device) (f : Feature)
    (parent : Option Device) (s l : Bool) (d : Option String) :
    (initEntity device (some f) parent s l d).uniqueId =
        some (if f.id = PRIMARY_STATE_ID then legacy_device_id device
          else legacy_device_id device ++ "_" ++ f.id)
    ∧ (∀ f2 : Feature, f.id ≠ f2.id →
        (initEntity device (some f) parent s l d).uniqueId ≠
          (initEntity device (some f2) parent s l d).uniqueId) := by
  constructor
  · simp only [initEntity, getUniqueId]
    split <;> rfl
  · intro f2 hne h
    simp only [initEntity, getUniqueId] at h
    by_cases h1 : f.id = PRIMARY_STATE_ID <;>
      by_cases h2 : f2.id = PRIMARY_STATE_ID
    · exact hne (h1.trans h2.symm)
    · rw [if_pos h1, if_neg h2] at h
      exact ne_append_underscore (legacy_device_id device) f2.id
        (Option.some.inj h)
    · rw [if_neg h1, if_pos h2] at h
      exact ne_append_underscore (legacy_device_id device) f.id
        (Option.some.inj h).symm
    · rw [if_neg h1, if_neg h2] at h
      exact hne (append_underscore_inj (legacy_device_id device) f.id f2.id
        (Option.some.inj h))

/-- C1 witness: on a concrete device, the primary-state feature and a config
feature receive distinct unique ids. -/
theorem C1_unique_id_with_feature_witness :
    (initEntity plugDevice (some stateFeature) none false false none).uniqueId ≠
      (initEntity plugDevice (some ledFeature) none false false none).uniqueId :=
  (C1_unique_id_with_feature plugDevice stateFeature none false false none).2
    ledFeature (by decide)

/-- C2: for a light entity built with no feature, the unique id is the device
MAC with ":" separators removed and upper-cased, except that a Dimmer of the
legacy (IotDevice) family falls back to the legacy device id. -/
theorem C2_light_unique_id (device : Device) (parent : Option Device) (s : Bool)
    (d : Option String) :
    (initEntity device none parent s true d).uniqueId =
      some (if device.device_type = DeviceType.Dimmer ∧ device.isIot then
              legacy_device_id device
            else (device.mac.replace ":" "").toUpper) := by
  by_cases hd : device.device_type = DeviceType.Dimmer ∧ device.isIot = true <;>
    simp [initEntity, getUniqueId, hd]

/-- C10: a concrete input at the public construction interface (no feature,
not a light entity, no entity description) on which `_get_unique_id` falls
through every branch and yields no identifier. -/
theorem C10_no_unique_id :
    (initEntity plugDevice none none false false none).uniqueId = none ∧
      getUniqueId plugDevice none false none = none := by
  exact ⟨rfl, rfl⟩

/-- C3 counterexample: on a concrete child of a hub, the constructor keeps the
child as its registry device but attaches a `via_device` link to the hub and
no MAC connection record, refuting the claim that a hub-parent entity gets the
MAC connection and no `via_device` link. -/
theorem C3_counterexample :
    (initEntity childDevice none (some hubDevice) false false none).registryDeviceId
        = childDevice.device_id
    ∧ (initEntity childDevice none (some hubDevice) false false none).connections
        = none
    ∧ (initEntity childDevice none (some hubDevice) false false none).via_device
        = some hubDevice.device_id := by
  exact ⟨rfl, rfl, rfl⟩

/-- C3 amended: an entity with no parent registers under its own device with
the device MAC attached as a connection and no `via_device` link; an entity
whose parent is a Hub (distinct from the device) also registers under its own
device, but with a `via_device` link to the hub and no MAC connection. -/
theorem C3_amended_root_links (device : Device) (feature : Option Feature)
    (s l : Bool) (d : Option String) :
    ((initEntity device feature none s l d).registryDeviceId = device.device_id
      ∧ (initEntity device feature none s l d).connections = some device.mac
      ∧ (initEntity device feature none s l d).via_device = none)
    ∧ (∀ p : Device, p.device_type = DeviceType.Hub → p ≠ device →
        ((initEntity device feature (some p) s l d).registryDeviceId
            = device.device_id
          ∧ (initEntity device feature (some p) s l d).via_device
            = some p.device_id
          ∧ (initEntity device feature (some p) s l d).connections = none)) := by
  constructor
  · exact ⟨rfl, rfl, rfl⟩
  · intro p hp hne
    simp [initEntity, hp, hne]

/-- C3 amended witness: the concrete hub-parent input exercises the amended
theorem. -/
theorem C3_amended_root_links_witness :
    (initEntity childDevice none (some hubDevice) false false none).via_device
      = some hubDevice.device_id :=
  ((C3_amended_root_links childDevice none false false none).2 hubDevice rfl
    (by decide)).2.1

/-- C4 counterexample: a sensor-domain entity with a Primary feature on a
child of a non-hub parent registers under the child (with the prefixed name
and a `via_device` link), refuting the claim that sensor-domain entities
register under the parent with name `parent.alias`. -/
theorem C4_counterexample :
    (initEntity childDevice (some stateFeature) (some stripDevice) true false
        none).registryDeviceId = childDevice.device_id
    ∧ childDevice.device_id ≠ stripDevice.device_id
    ∧ (initEntity childDevice (some stateFeature) (some stripDevice) true false
        none).via_device = some stripDevice.device_id
    ∧ (initEntity childDevice (some stateFeature) (some stripDevice) true false
        none).name = stripDevice.alias_ ++ " " ++ childDevice.alias_ := by
  exact ⟨rfl, by decide, rfl, rfl⟩

/-- C4 amended: for a non-Hub parent P (distinct from the child device C), an
entity that is NOT a sensor-domain class whose feature is absent or
Primary-category registers under P with name `P.alias` and no `via_device`
link; otherwise (a sensor-domain class, or a Config/Info/Debug feature) it
registers under C with name `"P.alias C.alias"` and a `via_device` link
to P. -/
theorem C4_amended_child_links (device p : Device) (feature : Option Feature)
    (s l : Bool) (d : Option String)
    (hp : p.device_type ≠ DeviceType.Hub) (hne : p ≠ device) :
    ((s = false ∧ (feature = none
        ∨ ∃ f, feature = some f ∧ f.category = FeatureCategory.Primary)) →
      ((initEntity device feature (some p) s l d).registryDeviceId = p.device_id
        ∧ (initEntity device feature (some p) s l d).name = p.alias_
        ∧ (initEntity device feature (some p) s l d).via_device = none))
    ∧ ((s = true
        ∨ ∃ f, feature = some f ∧ f.category ≠ FeatureCategory.Primary) →
      ((initEntity device feature (some p) s l d).registryDeviceId
          = device.device_id
        ∧ (initEntity device feature (some p) s l d).name
          = p.alias_ ++ " " ++ device.alias_
        ∧ (initEntity device feature (some p) s l d).via_device
          = some p.device_id)) := by
  constructor
  · rintro ⟨hs, hf⟩
    subst hs
    rcases hf with hf | ⟨f, hf, hfc⟩
    · subst hf
      simp [initEntity, hp]
    · subst hf
      simp [initEntity, hp, hfc]
  · rintro (hs | ⟨f, hf, hfc⟩)
    · subst hs
      simp [initEntity, hp, hne]
    · subst hf
      simp [initEntity, hp, hne, hfc]

/-- C4 amended witness: a Config-category feature on a concrete child of a
power strip registers under the child with a `via_device` link to the
strip. -/
theorem C4_amended_child_links_witness :
    (initEntity childDevice (some ledFeature) (some stripDevice) false false
        none).via_device = some stripDevice.device_id :=
  ((C4_amended_child_links childDevice stripDevice (some ledFeature) false false
      none (by decide) (by decide)).2
    (Or.inr ⟨ledFeature, rfl, by decide⟩)).2.2

/-- C5: every constructed entity carries exactly one of the MAC connection
record and the `via_device` link, never both and never neither. -/
theorem C5_exactly_one_link (device : Device) (feature : Option Feature)
    (parent : Option Device) (s l : Bool) (d : Option String) :
    ((initEntity device feature parent s l d).connections.isSome = true
      ∧ (initEntity device feature parent s l d).via_device = none)
    ∨ ((initEntity device feature parent s l d).connections = none
      ∧ (initEntity device feature parent s l d).via_device.isSome = true) := by
  cases parent with
  | none => exact Or.inl ⟨rfl, rfl⟩
  | some p =>
      simp only [initEntity]
      split_ifs <;> simp

/-- C6: `_entities_for_device` builds exactly one entity per qualifying
feature, and a feature qualifies if and only if its type matches the request
and it is not a Primary-category feature on a device type served by a
specialized platform. -/
theorem C6_enumerator (device : Device) (ft : FeatureType) (parent : Option Device)
    (s l : Bool) (d : Option String) :
    (entitiesForDevice device ft parent s l d
        = (device.features.filter (featureQualifies device ft)).map
            (fun feat => initEntity device (some feat) parent s l d))
    ∧ (∀ feat : Feature,
        featureQualifies device ft feat = true ↔
          (feat.type = ft ∧ (feat.category ≠ FeatureCategory.Primary
            ∨ device.device_type ∉ DEVICETYPES_WITH_SPECIALIZED_PLATFORMS))) := by
  constructor
  · rfl
  · intro feat
    simp [featureQualifies, List.contains_eq_any_beq]

/-- C7: a successful wrapped write action performs exactly one refresh request
and no other side effect; a failing one performs zero refresh requests and
raises a `HomeAssistantError` carrying the wrapped function's name and the
original exception text, with an authentication error additionally starting
the re-authentication flow before raising. -/
theorem C7_refresh_after (n m : String) :
    (async_refresh_after n (Except.ok ())
        = ([WrapEvent.refresh], Except.ok ()))
    ∧ ((async_refresh_after n (Except.ok ())).1.count WrapEvent.refresh = 1)
    ∧ (async_refresh_after n (Except.error (KasaError.auth m))
        = ([WrapEvent.reauth], Except.error ⟨"device_authentication", n, m⟩))
    ∧ (async_refresh_after n (Except.error (KasaError.timeoutErr m))
        = ([], Except.error ⟨"device_timeout", n, m⟩))
    ∧ (async_refresh_after n (Except.error (KasaError.kasa m))
        = ([], Except.error ⟨"device_error", n, m⟩))
    ∧ (∀ e : KasaError,
        (async_refresh_after n (Except.error e)).1.count WrapEvent.refresh = 0
        ∧ ∃ key, (async_refresh_after n (Except.error e)).2
            = Except.error ⟨key, n, e.msg⟩) := by
  refine ⟨rfl, rfl, rfl, rfl, rfl, ?_⟩
  intro e
  cases e <;> exact ⟨rfl, ⟨_, rfl⟩⟩

/-- While the entity is already unavailable, further failing refreshes log no
warning and leave it unavailable. -/
theorem runUpdates_error_from_false (k : Nat) (m : String) :
    runUpdates false (List.replicate k (Except.error m)) = (false, 0) := by
  induction k with
  | zero => rfl
  | succ k ih => simp [List.replicate_succ, runUpdates, callUpdateAttrs, ih]

/-- A failing streak followed by one success, started unavailable, ends
available with no warning logged. -/
theorem runUpdates_error_from_false_then_ok (k : Nat) (m : String) :
    runUpdates false (List.replicate k (Except.error m) ++ [Except.ok ()])
      = (true, 0) := by
  induction k with
  | zero => rfl
  | succ k ih => simp [List.replicate_succ, runUpdates, callUpdateAttrs, ih]

/-- C8: a successful refresh sets the availability flag, a failing refresh
clears it and logs a warning only on the available-to-unavailable edge, so a
whole failure streak from an available state logs exactly one warning, and a
success after the streak restores availability with no further warning.  The
handler is a total function, so the hook's exception never propagates. -/
theorem C8_availability (b : Bool) (m : String) (n : Nat) :
    (callUpdateAttrs b (Except.ok ()) = (true, 0))
    ∧ (callUpdateAttrs b (Except.error m) = (false, if b then 1 else 0))
    ∧ (runUpdates true (List.replicate (n + 1) (Except.error m)) = (false, 1))
    ∧ (runUpdates true (List.replicate (n + 1) (Except.error m) ++ [Except.ok ()])
        = (true, 1)) := by
  refine ⟨rfl, rfl, ?_, ?_⟩
  · simp [List.replicate_succ, runUpdates, callUpdateAttrs,
      runUpdates_error_from_false n m]
  · simp [List.replicate_succ, runUpdates, callUpdateAttrs,
      runUpdates_error_from_false_then_ok n m]

/-- C9: the description record carries `key = feature.id`,
`translation_key = feature.id` and `name = feature.name`; with no caller
override the registry-enabled default is `false` exactly for Debug-category
features, and an explicit caller override is always preserved. -/
theorem C9_description (f : Feature) (b : Bool) :
    ((description_for_feature f none).key = f.id
      ∧ (description_for_feature f none).translation_key = f.id
      ∧ (description_for_feature f none).name = f.name
      ∧ (description_for_feature f (some b)).key = f.id
      ∧ (description_for_feature f (some b)).translation_key = f.id
      ∧ (description_for_feature f (some b)).name = f.name)
    ∧ ((description_for_feature f none).entity_registry_enabled_default = false
        ↔ f.category = FeatureCategory.Debug)
    ∧ ((description_for_feature f (some b)).entity_registry_enabled_default
        = b) := by
  refine ⟨⟨rfl, rfl, rfl, rfl, rfl, rfl⟩, ?_, rfl⟩
  by_cases h : f.category = FeatureCategory.Debug <;>
    simp [description_for_feature, h]

end TPLink
